import Mathlib

/-!
Verification of the `rag_extraction` pipeline (chunk retriever, entity
extractor, relationship enhancer, storage writer) against its specification.

Modelling conventions, chosen once for the whole development:

* Python strings are modelled as Lean `String` / `List Char`.  `str.strip`,
  `str.lower`, `str.isdigit`, `str.isalpha` are modelled for the ASCII
  fragment (`pyStrip`, `pyLower`, `Char.isDigit`, `Char.isAlpha`); every
  string constant appearing in the source is ASCII.
* Float comparisons `len(a)/len(b) < 0.3` and `< 0.5` in the validators are
  modelled as the exact rational comparisons `10*a < 3*b` and `2*a < b`;
  the two sides agree except for astronomically large inputs where IEEE
  rounding of the quotient could differ.
* `processing_time` (wall-clock seconds) is omitted from the state: real
  time is outside the embedding.
* The external services are modelled as explicit behaviours passed to each
  stage: the graph store as `Except`-valued construction / fetch / write /
  close outcomes, each LLM completion as an `Except`-valued outcome whose
  `ok` value is the already-JSON-parsed list (a completion whose body does
  not parse is observationally the parsed empty list, matching the
  `except: return []` handlers in the source).  A stage that can let an
  exception escape returns `Except String _`; the `error` constructor is an
  exception crossing the stage boundary.  Client construction
  (`Neo4jClient()`, which calls `GraphDatabase.driver`) and `close()` are
  failable external calls; in the Python source they sit outside the
  `try` blocks of `retrieve_chunk` and `store_results`.
* Each stage additionally reports how many LLM completion requests
  (respectively graph-store write calls) it issued, so that "no request was
  issued" is a provable statement.
-/

set_option linter.unusedVariables false

/-! ## Python string primitives -/

/-- Python whitespace for `str.strip` (ASCII fragment). -/
def pyIsSpace (c : Char) : Bool :=
  c = ' ' || c = '\t' || c = '\n' || c = '\r' || c = '\x0b' || c = '\x0c'

/-- `str.strip()` on the character list. -/
def pyStrip (s : List Char) : List Char :=
  ((s.dropWhile pyIsSpace).reverse.dropWhile pyIsSpace).reverse

/-- `str.lower()` (ASCII fragment). -/
def pyLower (s : List Char) : List Char :=
  s.map Char.toLower

/-- `s.startswith(pat)`. -/
def beginsWith (pat s : List Char) : Bool :=
  s.take pat.length == pat

/-- Python substring membership `pat in s`. -/
def containsSub (pat : List Char) : List Char → Bool
  | [] => beginsWith pat []
  | c :: rest => beginsWith pat (c :: rest) || containsSub pat rest

/-- `s.count(c)` for a single-character needle. -/
def countChar (c : Char) (s : List Char) : Nat :=
  (s.filter (fun d => d == c)).length

/-- `s.split(sep)` for a single-character separator: keeps empty pieces,
`"".split(c) = [""]`. -/
def splitOnChar (c : Char) : List Char → List (List Char)
  | [] => [[]]
  | x :: rest =>
    match splitOnChar c rest with
    | [] => [[x]]
    | h :: t => if x == c then [] :: h :: t else (x :: h) :: t

/-- `" ".join(pieces)`. -/
def joinWithSpace : List (List Char) → List Char
  | [] => []
  | [l] => l
  | l :: rest => l ++ ' ' :: joinWithSpace rest

/-- `str.isdigit()` (ASCII fragment): non-empty and all digits. -/
def pyIsDigitStr (l : List Char) : Bool :=
  !l.isEmpty && l.all Char.isDigit

/-- Number of alphabetic characters, for the `isalpha` ratio check. -/
def countAlpha (l : List Char) : Nat :=
  (l.filter Char.isAlpha).length

/-! ## `utils/validators.py` -/

/-- `navigation_patterns` list of `should_process_chunk`. -/
def navigation_patterns : List String :=
  ["# Table of Contents", "## Page", "Click here", "See page",
   "Page ", "...", "##", "Chapter ", "Section "]

/-- `content_types` list of `should_process_chunk`. -/
def content_types : List String :=
  ["paragraph", "section", "subsection"]

/-- Rule 1: `len(chunk_text.strip()) < 50`. -/
def ruleTooShort (t : String) : Bool :=
  (pyStrip t.data).length < 50

/-- Rule 2: stripped text starts with an image marker and the full text has
fewer than two newlines. -/
def ruleImageOnly (t : String) : Bool :=
  beginsWith "![".data (pyStrip t.data) && countChar '\n' t.data < 2

/-- Some navigation pattern occurs (case-insensitively) in the text. -/
def textHasNav (t : String) : Bool :=
  navigation_patterns.any (fun p => containsSub (pyLower p.data) (pyLower t.data))

/-- Some navigation pattern occurs (case-insensitively) in one line. -/
def lineHasNav (l : List Char) : Bool :=
  navigation_patterns.any (fun p => containsSub (pyLower p.data) (pyLower l))

/-- Length of `' '.join(non_nav_lines)` where `non_nav_lines` are the
stripped non-empty lines not containing any navigation pattern. -/
def nonNavContentLen (t : String) : Nat :=
  let content_lines := ((splitOnChar '\n' t.data).map pyStrip).filter (fun l => !l.isEmpty)
  let non_nav_lines := content_lines.filter (fun l => !lineHasNav l)
  (joinWithSpace non_nav_lines).length

/-- Rule 3: a navigation pattern occurs and the non-navigation content is
shorter than 100 characters. -/
def ruleNavigation (t : String) : Bool :=
  textHasNav t && nonNavContentLen t < 100

/-- Rule 4: more than 5 lines and fewer than 30% distinct non-blank lines
(`len(unique)/len(lines) < 0.3`, modelled exactly as `10*unique < 3*lines`). -/
def ruleRepetitive (t : String) : Bool :=
  let lines := splitOnChar '\n' t.data
  let uniq := ((lines.map pyStrip).filter (fun l => !l.isEmpty)).dedup
  lines.length > 5 && 10 * uniq.length < 3 * lines.length

/-- Rule 6: more than ten dollar signs and fewer than 50 stripped characters
once all dollar signs are removed. -/
def ruleFormulaOnly (t : String) : Bool :=
  countChar '$' t.data > 10 &&
    (pyStrip (t.data.filter (fun c => !(c == '$')))).length < 50

/-- `should_process_chunk(chunk_text, chunk_type)` from
`utils/validators.py`: the chunk-eligibility predicate, rules evaluated in
source order, first match wins. -/
def should_process_chunk (chunk_text chunk_type : String) : Bool × String :=
  if ruleTooShort chunk_text then (false, "chunk_too_short")
  else if ruleImageOnly chunk_text then (false, "image_only_chunk")
  else if ruleNavigation chunk_text then (false, "navigation_only")
  else if ruleRepetitive chunk_text then (false, "repetitive_content")
  else if chunk_type != "" && !content_types.contains chunk_type &&
      (pyStrip chunk_text.data).length < 200 then
    (false, "non_content_type_" ++ chunk_type)
  else if ruleFormulaOnly chunk_text then (false, "formula_only")
  else (true, "")

/-- Leading-fragment words of the truncation regexes
(`^ly\s+`, `^ing\s+`, `^ed\s+`, `^er\s+`, `^and\s+`, `^the\s+`). -/
def truncFrags : List String :=
  ["ly", "ing", "ed", "er", "and", "the"]

/-- `re.search(r'^frag\s+', name, re.IGNORECASE)`: the lower-cased name
starts with the fragment followed by at least one whitespace character. -/
def leadingFragMatch (frag : String) (name : List Char) : Bool :=
  beginsWith frag.data (pyLower name) &&
    match name.drop frag.data.length with
    | c :: _ => pyIsSpace c
    | [] => false

/-- The truncation-pattern check of `validate_entity_name`: a leading
fragment word or a literal ellipsis anywhere. -/
def hasTruncation (name : List Char) : Bool :=
  truncFrags.any (fun f => leadingFragMatch f name) || containsSub "...".data name

/-- `ocr_artifacts` list (the braces are the literal characters). -/
def ocrArtifacts : List String :=
  ["\x7b", "\x7d", "^", "_", "\\", "$$", "`"]

/-- `meaningless` phrase list of `validate_entity_name`. -/
def meaninglessPhrases : List String :=
  ["click here", "see page", "page ", "chapter ", "section ",
   "figure ", "table ", "appendix ", "index", "bibliography"]

/-- `validate_entity_name(name)` from `utils/validators.py`. -/
def validate_entity_name (name0 : String) : Bool × String :=
  let name := pyStrip name0.data
  if name.length < 3 then (false, "too_short")
  else if hasTruncation name then (false, "truncated_name")
  else if pyIsDigitStr name && name.length ≤ 2 then (false, "single_digit")
  else if ocrArtifacts.any (fun a => containsSub a.data name) then (false, "ocr_artifact")
  else if 2 * countAlpha name < name.length then (false, "mostly_punctuation")
  else if meaninglessPhrases.any (fun p => containsSub p.data (pyLower name)) then
    (false, "meaningless_phrase")
  else (true, "")

/-- `meaningless_defs` list of `validate_entity_definition`. -/
def meaninglessDefs : List String :=
  ["definition not provided", "see above", "as mentioned",
   "refers to", "unknown", "n/a"]

/-- `validate_entity_definition(definition, entity_name)` from
`utils/validators.py`. -/
def validate_entity_definition (definition entity_name : String) : Bool × String :=
  if definition == "" || (pyStrip definition.data).length < 10 then
    (false, "too_short")
  else
    let d := pyStrip definition.data
    if containsSub (pyLower entity_name.data) (pyLower d) &&
        d.length < entity_name.data.length + 20 then
      (false, "circular_definition")
    else if meaninglessDefs.any (fun p => containsSub p.data (pyLower d)) then
      (false, "meaningless_definition")
    else (true, "")

/-! ## `schemas/` : entity, relationship and state records -/

/-- The six values of the `RelationshipType` enum in `schemas/entities.py`,
in declaration order (`[rt.value for rt in RelationshipType]`). -/
def valid_rel_types : List String :=
  ["RELATED_TO", "PREREQUISITE_OF", "PART_OF", "USES", "SIMILAR_TO", "APPLIED_IN"]

/-- A raw entity dictionary as produced by an extractor and consumed by the
pipeline.  Only the keys the pipeline reads or writes are modelled:
`name`, `definition` (absent / `None` is `none`; the empty string is a
present falsy value), and `entity_type` (absent until the storage writer
adds it).  Prompt-only keys (`confidence`, `domain`) are not consulted by
any verified code path and are omitted. -/
structure RawEntity where
  name : String
  definition : Option String := none
  entity_type : Option String := none
deriving DecidableEq, Repr

/-- A raw relationship dictionary as parsed from the enhancer LLM response.
`rel.get(key)` on a possibly missing key is an `Option`.  `confidence` is
never consulted by the filter and is omitted. -/
structure RelRec where
  source_entity : Option String := none
  target_entity : Option String := none
  relationship_type : Option String := none
  description : Option String := none
deriving DecidableEq, Repr

/-- The `chunk_metadata` sub-record built by the retriever. -/
structure ChunkMetadata where
  token_count : Option Nat := none
  book_id : Option String := none
  position : Option Nat := none
deriving DecidableEq, Repr

/-- A chunk record returned by `Neo4jClient.get_chunk_data`; each field is
optional because the source reads it with `dict.get`. -/
structure ChunkData where
  text : Option String := none
  chunk_type : Option String := none
  token_count : Option Nat := none
  book_id : Option String := none
  position : Option Nat := none
deriving DecidableEq, Repr

/-- `ExtractionState` from `schemas/state.py`.  `extracted_entities` is the
insertion-ordered dict modelled as an association list; `processing_time`
(wall-clock) is omitted. -/
structure ExtractionState where
  chunk_id : String
  chunk_text : Option String := none
  chunk_metadata : Option ChunkMetadata := none
  chunk_type : Option String := none
  extracted_entities : List (String × List RawEntity) := []
  entity_relationships : List RelRec := []
  errors : List String := []
  warnings : List String := []
  entity_count : Nat := 0
  relationship_count : Nat := 0
  should_process : Bool := true
  skip_reason : Option String := none
deriving DecidableEq, Repr

/-- A fresh state for one pipeline invocation: only `chunk_id` is set, every
other field takes its pydantic default. -/
def initState (cid : String) : ExtractionState :=
  { chunk_id := cid }

/-- Python dict assignment `d[k] = v` on the association list: overwrite in
place if the key exists, else append. -/
def dictInsert (d : List (String × List RawEntity)) (k : String)
    (v : List RawEntity) : List (String × List RawEntity) :=
  if d.any (fun p => p.1 == k) then
    d.map (fun p => if p.1 == k then (k, v) else p)
  else d ++ [(k, v)]

/-- `sum(len(entities) for entities in state.extracted_entities.values())`. -/
def totalCount (d : List (String × List RawEntity)) : Nat :=
  (d.map (fun p => p.2.length)).sum

/-! ## `nodes/chunk_retriever.py` -/

/-- Behaviour of the graph store as seen by `retrieve_chunk`: client
construction (`Neo4jClient()`), `get_chunk_data`, and `close()`.  Each is an
external call that either succeeds or raises. -/
structure StoreBehaviour where
  ctor : Except String Unit
  fetch : Except String (Option ChunkData)
  close : Except String Unit
deriving Repr

/-- `retrieve_chunk(state)` from `nodes/chunk_retriever.py`.  An `error`
result is an exception escaping the stage: client construction happens
before the `try`, and `close()` runs in the `finally`, so either of them
raising propagates to the caller. -/
def retrieve_chunk (sb : StoreBehaviour) (s : ExtractionState) :
    Except String ExtractionState :=
  match sb.ctor with
  | .error e => .error e
  | .ok _ =>
    let s1 :=
      match sb.fetch with
      | .error e =>
        { s with errors := s.errors ++ ["Error retrieving chunk: " ++ e],
                 should_process := false,
                 skip_reason := some "retrieval_error" }
      | .ok none =>
        { s with errors := s.errors ++
                   ["Chunk " ++ s.chunk_id ++ " not found in database"],
                 should_process := false,
                 skip_reason := some "chunk_not_found" }
      | .ok (some cd) =>
        let text := cd.text.getD ""
        let ty := cd.chunk_type.getD "unknown"
        let s2 := { s with
          chunk_text := some text,
          chunk_type := some ty,
          chunk_metadata := some
            { token_count := cd.token_count, book_id := cd.book_id,
              position := cd.position } }
        let pr := should_process_chunk text ty
        if pr.1 then { s2 with should_process := true }
        else
          { s2 with should_process := false,
                    skip_reason := some pr.2,
                    warnings := s2.warnings ++ ["Skipping chunk: " ++ pr.2] }
    match sb.close with
    | .error e => .error e
    | .ok _ => .ok s1

/-! ## `nodes/entity_extractor.py` -/

/-- The five extractor categories, in the iteration order of the
`extractors` dict literal. -/
inductive ExtractorCat where
  | concept
  | method
  | formula
  | exampleCat
  | legal_principle
deriving DecidableEq, Repr

/-- The dict key under which each extractor files its results. -/
def ExtractorCat.pyName : ExtractorCat → String
  | .concept => "concept"
  | .method => "method"
  | .formula => "formula"
  | .exampleCat => "example"
  | .legal_principle => "legal_principle"

/-- The category iteration order of the `extractors` dict. -/
def catList : List ExtractorCat :=
  [.concept, .method, .formula, .exampleCat, .legal_principle]

/-- Behaviour of one LLM completion request for an extractor category: the
call raises, or succeeds and its body parses to the given list (a body that
fails `json.loads`, or is not a list, is the parsed empty list, matching the
`except: return []` / `isinstance` handlers in the source). -/
abbrev LLMEntityOutcome := Except String (List RawEntity)

/-- `extract_concepts`: one completion request, result passed through. -/
def extract_concepts (llm : LLMEntityOutcome) (chunk_text chunk_type : String) :
    LLMEntityOutcome × Nat :=
  (llm, 1)

/-- `extract_methods`: one completion request, result passed through. -/
def extract_methods (llm : LLMEntityOutcome) (chunk_text chunk_type : String) :
    LLMEntityOutcome × Nat :=
  (llm, 1)

/-- The math-indicator characters guarding `extract_formulas`. -/
def mathIndicators : List String :=
  ["$", "=", "+", "-", "*", "/", "^", "²", "³"]

/-- `extract_formulas`: returns `[]` without any completion request when the
text contains no math indicator; otherwise one request, post-filtered to
drop entities whose name is a 1-2 digit numeral. -/
def extract_formulas (llm : LLMEntityOutcome) (chunk_text chunk_type : String) :
    LLMEntityOutcome × Nat :=
  if !mathIndicators.any (fun i => containsSub i.data chunk_text.data) then
    (.ok [], 0)
  else
    match llm with
    | .error e => (.error e, 1)
    | .ok ents =>
      (.ok (ents.filter (fun e => !(pyIsDigitStr e.name.data && e.name.length ≤ 2))), 1)

/-- `extract_examples`: one completion request, result passed through. -/
def extract_examples (llm : LLMEntityOutcome) (chunk_text chunk_type : String) :
    LLMEntityOutcome × Nat :=
  (llm, 1)

/-- The legal-indicator keywords guarding `extract_legal_principles`. -/
def legalIndicators : List String :=
  ["court", "law", "rule", "statute", "precedent", "jurisdiction", "legal", "judge"]

/-- `extract_legal_principles`: returns `[]` without any completion request
when the lower-cased text contains no legal indicator; otherwise one
request. -/
def extract_legal_principles (llm : LLMEntityOutcome) (chunk_text chunk_type : String) :
    LLMEntityOutcome × Nat :=
  if !legalIndicators.any (fun i => containsSub i.data (pyLower chunk_text.data)) then
    (.ok [], 0)
  else
    match llm with
    | .error e => (.error e, 1)
    | .ok ents => (.ok ents, 1)

/-- Dispatch one category's extractor on the per-category LLM behaviour
`b`.  Result: the category's outcome and the number of completion requests
it issued. -/
def runExtractor (b : ExtractorCat → LLMEntityOutcome) (text ty : String) :
    ExtractorCat → LLMEntityOutcome × Nat
  | .concept => extract_concepts (b .concept) text ty
  | .method => extract_methods (b .method) text ty
  | .formula => extract_formulas (b .formula) text ty
  | .exampleCat => extract_examples (b .exampleCat) text ty
  | .legal_principle => extract_legal_principles (b .legal_principle) text ty

/-- The per-entity validation step of the `extract_entities` loop: drop the
entity (with a warning) when its name fails `validate_entity_name`; when its
definition is present and truthy but fails `validate_entity_definition`,
null the definition and warn; otherwise keep it unchanged. -/
def validateEntity (e : RawEntity) : Option RawEntity × List String :=
  let nv := validate_entity_name e.name
  if nv.1 then
    match e.definition with
    | some d =>
      if d == "" then (some e, [])
      else
        let dv := validate_entity_definition d e.name
        if dv.1 then (some e, [])
        else (some { e with definition := none },
              ["Invalid definition for " ++ e.name ++ ": " ++ dv.2])
    | none => (some e, [])
  else (none, ["Invalid entity name " ++ e.name ++ ": " ++ nv.2])

/-- The validation loop over one category's entity list: surviving entities
in order, and the warnings issued. -/
def validateEntities : List RawEntity → List RawEntity × List String
  | [] => ([], [])
  | e :: rest =>
    let r := validateEntity e
    let rec' := validateEntities rest
    ((match r.1 with
      | some e2 => e2 :: rec'.1
      | none => rec'.1), r.2 ++ rec'.2)

/-- One iteration of the result-collection loop of `extract_entities`: on a
raised task append the per-category error; on a returned list validate,
append the warnings, and file the survivors under the category when at
least one survives. -/
def processCategory (s : ExtractionState) (cat : ExtractorCat)
    (o : LLMEntityOutcome) : ExtractionState :=
  match o with
  | .ok entities =>
    let vw := validateEntities entities
    let s1 := { s with warnings := s.warnings ++ vw.2 }
    if vw.1.isEmpty then s1
    else { s1 with extracted_entities := dictInsert s1.extracted_entities cat.pyName vw.1 }
  | .error e =>
    { s with errors := s.errors ++
        ["Error in " ++ cat.pyName ++ " extractor: " ++ e] }

/-- The result-collection loop over the categories, in dict order. -/
def runCats (b : ExtractorCat → LLMEntityOutcome) (text ty : String) :
    List ExtractorCat → ExtractionState → ExtractionState
  | [], s => s
  | c :: rest, s =>
    runCats b text ty rest (processCategory s c (runExtractor b text ty c).1)

/-- `extract_entities(state)` from `nodes/entity_extractor.py`.  `ci` is the
`AsyncOpenAI()` construction outcome (inside the outer `try`, so a failure
is caught and recorded).  Returns the new state and the number of LLM
completion requests issued. -/
def extract_entities (ci : Except String Unit)
    (b : ExtractorCat → LLMEntityOutcome) (s : ExtractionState) :
    ExtractionState × Nat :=
  if s.should_process then
    match ci with
    | .error e =>
      ({ s with errors := s.errors ++ ["Error in entity extraction: " ++ e] }, 0)
    | .ok _ =>
      let text := s.chunk_text.getD ""
      let ty := s.chunk_type.getD ""
      let s1 := runCats b text ty catList s
      ({ s1 with entity_count := totalCount s1.extracted_entities },
       (catList.map (fun c => (runExtractor b text ty c).2)).sum)
  else (s, 0)

/-! ## `nodes/relationship_enhancer.py` -/

/-- `rel.get(key) in entities` on an optional field. -/
def optMem (o : Option String) (l : List String) : Bool :=
  match o with
  | some s => l.contains s
  | none => false

/-- The filter condition of `find_entity_relationships`: source and target
both among the candidate names, type in the valid vocabulary, source and
target distinct. -/
def relKeep (entities : List String) (r : RelRec) : Bool :=
  optMem r.source_entity entities &&
  optMem r.target_entity entities &&
  (match r.relationship_type with
   | some ty => valid_rel_types.contains ty
   | none => false) &&
  r.source_entity != r.target_entity

/-- Behaviour of the enhancer's single LLM completion: the call raises, or
succeeds with a body parsing to the given relationship list (an unparseable
body is observationally the parsed empty list, matching
`except Exception: return []`). -/
abbrev LLMRelOutcome := Except String (List RelRec)

/-- `find_entity_relationships(client, entities, chunk_text)` from
`nodes/relationship_enhancer.py`: empty without a request for fewer than
two candidates; otherwise truncate to the first ten names, issue one
request, and keep only relationships passing `relKeep`.  `chunk_text` only
shapes the prompt.  An `error` result is the completion call raising, which
propagates to the caller. -/
def find_entity_relationships (llm : LLMRelOutcome) (entities : List String)
    (chunk_text : String) : LLMRelOutcome × Nat :=
  if entities.length < 2 then (.ok [], 0)
  else
    let entities := if entities.length > 10 then entities.take 10 else entities
    match llm with
    | .error e => (.error e, 1)
    | .ok rels => (.ok (rels.filter (relKeep entities)), 1)

/-- `enhance_relationships(state)` from `nodes/relationship_enhancer.py`.
`ci` is the `AsyncOpenAI()` construction outcome (inside the `try`).
Returns the new state and the number of completion requests issued. -/
def enhance_relationships (ci : Except String Unit) (llm : LLMRelOutcome)
    (s : ExtractionState) : ExtractionState × Nat :=
  if !s.should_process || s.entity_count == 0 then (s, 0)
  else
    let all_entities := (s.extracted_entities.map (fun p => p.2.map RawEntity.name)).flatten
    if all_entities.length < 2 then (s, 0)
    else
      match ci with
      | .error e =>
        ({ s with errors := s.errors ++ ["Error in relationship enhancement: " ++ e] }, 0)
      | .ok _ =>
        match find_entity_relationships llm all_entities (s.chunk_text.getD "") with
        | (.error e, n) =>
          ({ s with errors := s.errors ++ ["Error in relationship enhancement: " ++ e] }, n)
        | (.ok rels, n) =>
          ({ s with entity_relationships := rels,
                    relationship_count := rels.length }, n)

/-! ## `nodes/storage_writer.py` -/

/-- Behaviour of the graph store as seen by `store_results`: client
construction, the `store_entities` write, and `close()`. -/
structure StoreWriteBehaviour where
  ctor : Except String Unit
  store : Except String Unit
  close : Except String Unit
deriving Repr

/-- `store_results(state)` from `nodes/storage_writer.py`.  The flattening
loop mutates each entity dict in place, adding `entity_type`; the mutation
is visible in `extracted_entities` afterwards, whether or not the write
succeeds.  Client construction happens before the `try` and `close()` in
the `finally`, so either raising propagates (an `error` result).  Returns
the new state and the number of `store_entities` calls issued. -/
def store_results (wb : StoreWriteBehaviour) (s : ExtractionState) :
    Except String (ExtractionState × Nat) :=
  if !s.should_process || s.entity_count == 0 then .ok (s, 0)
  else
    match wb.ctor with
    | .error e => .error e
    | .ok _ =>
      let tagged := s.extracted_entities.map
        (fun p => (p.1, p.2.map (fun e => { e with entity_type := some p.1 })))
      let all_entities := (tagged.map Prod.snd).flatten
      let s1 := { s with extracted_entities := tagged }
      let s2 :=
        match wb.store with
        | .error e =>
          { s1 with errors := s1.errors ++ ["Error storing results: " ++ e] }
        | .ok _ =>
          { s1 with warnings := s1.warnings ++
              ["Stored " ++ toString all_entities.length ++ " entities and " ++
               toString s1.entity_relationships.length ++ " relationships"] }
      match wb.close with
      | .error e => .error e
      | .ok _ => .ok (s2, 1)

/-! ## Structural lemmas about the extractor loop -/

/-- Errors one category iteration appends. -/
def catErrDelta (cat : ExtractorCat) (o : LLMEntityOutcome) : List String :=
  match o with
  | .ok _ => []
  | .error e => ["Error in " ++ cat.pyName ++ " extractor: " ++ e]

/-- Warnings one category iteration appends. -/
def catWarnDelta (o : LLMEntityOutcome) : List String :=
  match o with
  | .ok entities => (validateEntities entities).2
  | .error _ => []

/-- The update one category iteration performs on the entity dict. -/
def catDictUpd (d : List (String × List RawEntity)) (cat : ExtractorCat)
    (o : LLMEntityOutcome) : List (String × List RawEntity) :=
  match o with
  | .ok entities =>
    let kept := (validateEntities entities).1
    if kept.isEmpty then d else dictInsert d cat.pyName kept
  | .error _ => d

/-- Errors the whole category loop appends, independent of the state. -/
def errDeltas (b : ExtractorCat → LLMEntityOutcome) (text ty : String)
    (cats : List ExtractorCat) : List String :=
  cats.flatMap (fun c => catErrDelta c (runExtractor b text ty c).1)

/-- Warnings the whole category loop appends, independent of the state. -/
def warnDeltas (b : ExtractorCat → LLMEntityOutcome) (text ty : String)
    (cats : List ExtractorCat) : List String :=
  cats.flatMap (fun c => catWarnDelta (runExtractor b text ty c).1)

/-- The entity-dict update of the whole category loop. -/
def dictUpds (b : ExtractorCat → LLMEntityOutcome) (text ty : String)
    (cats : List ExtractorCat) (d : List (String × List RawEntity)) :
    List (String × List RawEntity) :=
  cats.foldl (fun d c => catDictUpd d c (runExtractor b text ty c).1) d

theorem processCategory_eq (s : ExtractionState) (cat : ExtractorCat)
    (o : LLMEntityOutcome) :
    processCategory s cat o =
      { s with errors := s.errors ++ catErrDelta cat o,
               warnings := s.warnings ++ catWarnDelta o,
               extracted_entities := catDictUpd s.extracted_entities cat o } := by
  cases o with
  | error e => simp [processCategory, catErrDelta, catWarnDelta, catDictUpd]
  | ok entities =>
    simp only [processCategory, catErrDelta, catWarnDelta, catDictUpd,
      List.append_nil]
    split <;> rfl

/-- The category loop decomposed: it appends the behaviour-determined error
and warning deltas and applies the behaviour-determined dict update; no
other field of the state changes. -/
theorem runCats_eq (b : ExtractorCat → LLMEntityOutcome) (text ty : String)
    (cats : List ExtractorCat) (s : ExtractionState) :
    runCats b text ty cats s =
      { s with errors := s.errors ++ errDeltas b text ty cats,
               warnings := s.warnings ++ warnDeltas b text ty cats,
               extracted_entities := dictUpds b text ty cats s.extracted_entities } := by
  induction cats generalizing s with
  | nil => simp [runCats, errDeltas, warnDeltas, dictUpds]
  | cons c cs ih =>
    simp only [runCats, processCategory_eq, ih, errDeltas, warnDeltas, dictUpds,
      List.flatMap_cons, List.foldl_cons, List.append_assoc]

/-- Two behaviours whose extractor results agree on every listed category
drive the loop identically. -/
theorem runCats_congr (b b' : ExtractorCat → LLMEntityOutcome) (text ty : String)
    (cats : List ExtractorCat) (s : ExtractionState)
    (h : ∀ c ∈ cats, runExtractor b text ty c = runExtractor b' text ty c) :
    runCats b text ty cats s = runCats b' text ty cats s := by
  induction cats generalizing s with
  | nil => rfl
  | cons c cs ih =>
    simp only [runCats, h c (List.mem_cons_self c cs)]
    exact ih _ (fun d hd => h d (List.mem_cons_of_mem c hd))

/-! ## Claims -/

/-- Claim C9: for every chunk text whose trimmed length is less than 50
characters and every declared type, `should_process_chunk` returns
ineligible with reason `chunk_too_short`, regardless of any other rule the
text might also match. -/
theorem spec_c9 (t ty : String) (h : (pyStrip t.data).length < 50) :
    should_process_chunk t ty = (false, "chunk_too_short") := by
  simp [should_process_chunk, ruleTooShort, h]

theorem spec_c9_witness :
    (pyStrip ("## Page 12" : String).data).length < 50 ∧
      should_process_chunk "## Page 12" "code" = (false, "chunk_too_short") :=
  ⟨by decide, spec_c9 "## Page 12" "code" (by decide)⟩

/-- Claim C8: for every chunk text containing none of the math-indicator
characters, `extract_formulas` returns the empty list and issues no LLM
completion request, whatever the LLM behaviour. -/
theorem spec_c8 (llm : LLMEntityOutcome) (t ty : String)
    (h : mathIndicators.any (fun i => containsSub i.data t.data) = false) :
    extract_formulas llm t ty = (.ok [], 0) := by
  simp [extract_formulas, h]

theorem spec_c8_witness :
    mathIndicators.any
        (fun i => containsSub i.data ("The court weighed both doctrines at length" : String).data) = false ∧
      extract_formulas (.error "llm down") "The court weighed both doctrines at length" "paragraph" = (.ok [], 0) :=
  ⟨by decide, spec_c8 (.error "llm down") "The court weighed both doctrines at length" "paragraph" (by decide)⟩

/-- A 91-character single-line paragraph that matches no eligibility rule:
used to exhibit the empty-type behaviour of `should_process_chunk`. -/
def c3text : String :=
  "gradient descent is an iterative optimization method used widely in machine learning tasks"

/-- Claim C3 counterexample: the claim asserts the reason
`non_content_type_<type>` for every type outside {paragraph, section,
subsection}, including an empty or absent type; but for the empty type the
source skips the rule (`if chunk_type and ...`), so a sub-200-character
chunk matching no other rule is eligible, not ineligible. -/
theorem spec_c3_counterexample :
    ruleTooShort c3text = false ∧ ruleImageOnly c3text = false ∧
    ruleNavigation c3text = false ∧ ruleRepetitive c3text = false ∧
    content_types.contains "" = false ∧ (pyStrip c3text.data).length < 200 ∧
    should_process_chunk c3text "" = (true, "") := by
  decide

/-- Claim C3 (amended): for every chunk text on which no earlier rule fires
and every NON-EMPTY declared type outside {paragraph, section, subsection},
if the trimmed text length is below 200 the predicate returns ineligible
with reason `non_content_type_<type>`; an empty (falsy) type skips the
rule. -/
theorem spec_c3_amended (t ty : String)
    (h1 : ruleTooShort t = false) (h2 : ruleImageOnly t = false)
    (h3 : ruleNavigation t = false) (h4 : ruleRepetitive t = false)
    (hty : ty ≠ "") (hct : content_types.contains ty = false)
    (hlen : (pyStrip t.data).length < 200) :
    should_process_chunk t ty = (false, "non_content_type_" ++ ty) := by
  have hct2 : ¬ ty ∈ content_types := by simpa using hct
  simp [should_process_chunk, h1, h2, h3, h4, hty, hct2, hlen]

theorem spec_c3_amended_witness :
    ruleTooShort c3text = false ∧ ruleImageOnly c3text = false ∧
    ruleNavigation c3text = false ∧ ruleRepetitive c3text = false ∧
    ("code" : String) ≠ "" ∧ content_types.contains "code" = false ∧
    (pyStrip c3text.data).length < 200 ∧
    should_process_chunk c3text "code" = (false, "non_content_type_code") :=
  ⟨by decide, by decide, by decide, by decide, by decide, by decide, by decide,
   spec_c3_amended c3text "code" (by decide) (by decide) (by decide) (by decide)
     (by decide) (by decide) (by decide)⟩

/-- The fetch behaviour of the end-to-end scenario for chunk `c2`: the
store returns the chunk with text `"## Page 12\n..."` and declared type
`"paragraph"`. -/
def c2Fetch : StoreBehaviour :=
  { ctor := .ok (),
    fetch := .ok (some { text := some "## Page 12\n...", chunk_type := some "paragraph" }),
    close := .ok () }

/-- Claim C1 counterexample: on the chunk `c2` scenario the retriever does
set `should_process` to `false`, but with `skip_reason` `chunk_too_short`
(the trimmed text has 14 characters, so the first rule fires before the
navigation rule), not `navigation_only` as the claim states. -/
theorem spec_c1_counterexample :
    (∃ s1, retrieve_chunk c2Fetch (initState "c2") = .ok s1 ∧
      s1.should_process = false ∧ s1.skip_reason = some "chunk_too_short") ∧
    should_process_chunk "## Page 12\n..." "paragraph" = (false, "chunk_too_short") ∧
    ("chunk_too_short" : String) ≠ "navigation_only" :=
  ⟨⟨_, rfl, rfl, rfl⟩, by decide, by decide⟩

/-- Claim C1 (amended): on the chunk `c2` scenario the retriever sets
`should_process = false` with `skip_reason = "chunk_too_short"`;
`entity_count` stays 0 and, whatever the LLM and store behaviours, no
downstream stage issues an LLM completion request or a store write. -/
theorem spec_c1_amended (ci ci2 : Except String Unit)
    (b : ExtractorCat → LLMEntityOutcome) (llm : LLMRelOutcome)
    (wb : StoreWriteBehaviour) :
    ∃ s1, retrieve_chunk c2Fetch (initState "c2") = .ok s1 ∧
      s1.should_process = false ∧
      s1.skip_reason = some "chunk_too_short" ∧
      s1.entity_count = 0 ∧
      extract_entities ci b s1 = (s1, 0) ∧
      enhance_relationships ci2 llm s1 = (s1, 0) ∧
      store_results wb s1 = .ok (s1, 0) :=
  ⟨_, rfl, rfl, rfl, rfl, rfl, rfl, rfl⟩

/-- Claim C4: every relationship surviving the filter of
`find_entity_relationships` has a source and target occurring (exact string
match) in the candidate name list, a relationship type in the closed
vocabulary, and distinct source and target; a relationship violating any of
these never survives. -/
theorem spec_c4 (rels : List RelRec) (ents : List String) (ctx : String)
    (kept : List RelRec) (n : Nat)
    (h : find_entity_relationships (.ok rels) ents ctx = (.ok kept, n)) :
    ∀ r ∈ kept,
      (∃ s, r.source_entity = some s ∧ s ∈ ents) ∧
      (∃ t, r.target_entity = some t ∧ t ∈ ents) ∧
      (∃ ty, r.relationship_type = some ty ∧ ty ∈ valid_rel_types) ∧
      r.source_entity ≠ r.target_entity := by
  intro r hr
  unfold find_entity_relationships at h
  split at h
  · simp only [Prod.mk.injEq, Except.ok.injEq] at h
    rw [← h.1] at hr
    simp at hr
  · have hsub : (if ents.length > 10 then ents.take 10 else ents) ⊆ ents := by
      split
      · exact List.take_subset 10 ents
      · exact fun a ha => ha
    simp only [Prod.mk.injEq, Except.ok.injEq] at h
    rw [← h.1] at hr
    have hk := (List.mem_filter.mp hr).2
    simp only [relKeep, Bool.and_eq_true] at hk
    obtain ⟨⟨⟨hs, ht⟩, hty⟩, hne⟩ := hk
    refine ⟨?_, ?_, ?_, by simpa using hne⟩
    · cases hsrc : r.source_entity with
      | none => rw [hsrc] at hs; simp [optMem] at hs
      | some sv =>
        rw [hsrc] at hs
        exact ⟨sv, rfl, hsub (by simpa [optMem] using hs)⟩
    · cases htgt : r.target_entity with
      | none => rw [htgt] at ht; simp [optMem] at ht
      | some tv =>
        rw [htgt] at ht
        exact ⟨tv, rfl, hsub (by simpa [optMem] using ht)⟩
    · cases hrt : r.relationship_type with
      | none => rw [hrt] at hty; simp at hty
      | some tv =>
        rw [hrt] at hty
        exact ⟨tv, rfl, by simpa using hty⟩

/-- A well-formed relationship between the two candidate names, for the C4
witness. -/
def c4rel : RelRec :=
  { source_entity := some "Alpha", target_entity := some "Beta",
    relationship_type := some "USES" }

theorem spec_c4_witness :
    find_entity_relationships (.ok [c4rel]) ["Alpha", "Beta"] "ctx" = (.ok [c4rel], 1) ∧
    ((∃ s, c4rel.source_entity = some s ∧ s ∈ ["Alpha", "Beta"]) ∧
     (∃ t, c4rel.target_entity = some t ∧ t ∈ ["Alpha", "Beta"]) ∧
     (∃ ty, c4rel.relationship_type = some ty ∧ ty ∈ valid_rel_types) ∧
     c4rel.source_entity ≠ c4rel.target_entity) :=
  ⟨rfl,
   spec_c4 [c4rel] ["Alpha", "Beta"] "ctx" [c4rel] 1 rfl c4rel (by decide)⟩

/-- Claim C7 counterexample: an entity whose definition is present but is
the empty string.  The empty definition fails `validate_entity_definition`
(reason `too_short`) and the name passes `validate_entity_name`, yet the
validation step keeps the entity with the definition unchanged (not nulled)
and appends no warning, because the source only validates truthy
definitions (`if entity.get('definition')`). -/
theorem spec_c7_counterexample :
    (validate_entity_name "Gradient Descent").1 = true ∧
    validate_entity_definition "" "Gradient Descent" = (false, "too_short") ∧
    validateEntity { name := "Gradient Descent", definition := some "" } =
      (some { name := "Gradient Descent", definition := some "" }, []) := by
  decide

/-- Claim C7 (amended): for every entity whose name passes the name
validator and whose present NON-EMPTY definition fails the definition
validator, the validation step keeps the entity with its definition set to
null and appends a warning; an entity is dropped exactly when its name
fails validation (a present empty-string definition is falsy and is kept
unvalidated and unchanged). -/
theorem spec_c7_amended :
    (∀ (e : RawEntity) (d : String), e.definition = some d → d ≠ "" →
      (validate_entity_name e.name).1 = true →
      (validate_entity_definition d e.name).1 = false →
      validateEntity e = (some { e with definition := none },
        ["Invalid definition for " ++ e.name ++ ": " ++
          (validate_entity_definition d e.name).2])) ∧
    (∀ e : RawEntity, (validateEntity e).1 = none ↔
      (validate_entity_name e.name).1 = false) := by
  constructor
  · intro e d hd hne hname hdef
    simp only [validateEntity, hname, hd, if_true]
    have hne2 : (d == "") = false := by simpa using hne
    simp [hne2, hdef]
  · intro e
    cases hname : (validate_entity_name e.name).1 with
    | false => simp [validateEntity, hname]
    | true =>
      cases hdef : e.definition with
      | none => simp [validateEntity, hname, hdef]
      | some d =>
        by_cases hd : d = ""
        · simp [validateEntity, hname, hdef, hd]
        · cases hdv : (validate_entity_definition d e.name).1 with
          | true => simp [validateEntity, hname, hdef, hd, hdv]
          | false => simp [validateEntity, hname, hdef, hd, hdv]

/-- An entity with a valid name and a present, non-empty, invalid
definition, for the C7 witness. -/
def c7entity : RawEntity :=
  { name := "Gradient Descent", definition := some "see above" }

theorem spec_c7_witness :
    c7entity.definition = some "see above" ∧ ("see above" : String) ≠ "" ∧
    (validate_entity_name c7entity.name).1 = true ∧
    (validate_entity_definition "see above" c7entity.name).1 = false ∧
    validateEntity c7entity = (some { c7entity with definition := none },
      ["Invalid definition for " ++ c7entity.name ++ ": " ++
        (validate_entity_definition "see above" c7entity.name).2]) ∧
    ((validateEntity c7entity).1 = none ↔
      (validate_entity_name c7entity.name).1 = false) :=
  ⟨rfl, by decide, by decide, by decide,
   spec_c7_amended.1 c7entity "see above" rfl (by decide) (by decide) (by decide),
   spec_c7_amended.2 c7entity⟩

/-- Claim C10: when `store_results` runs on a state with `should_process`
true and a non-zero entity count, the flattening adds an `entity_type`
field equal to the category key to every entity record reachable through
the returned state's `extracted_entities` mapping (the in-place mutation of
the shared dicts). -/
theorem spec_c10 (wb : StoreWriteBehaviour) (s s2 : ExtractionState) (n : Nat)
    (hsp : s.should_process = true) (hec : s.entity_count ≠ 0)
    (h : store_results wb s = .ok (s2, n)) :
    ∀ cat ents, (cat, ents) ∈ s2.extracted_entities → ∀ e ∈ ents,
      e.entity_type = some cat := by
  unfold store_results at h
  have hgate : (!s.should_process || s.entity_count == 0) = false := by
    simp [hsp, hec]
  rw [hgate] at h
  simp only [Bool.false_eq_true, if_false] at h
  cases hc : wb.ctor with
  | error e => rw [hc] at h; cases h
  | ok u =>
    rw [hc] at h
    cases hcl : wb.close with
    | error e => rw [hcl] at h; cases hst : wb.store <;> rw [hst] at h <;> cases h
    | ok v =>
      rw [hcl] at h
      have hext : s2.extracted_entities = s.extracted_entities.map
          (fun p => (p.1, p.2.map (fun e => { e with entity_type := some p.1 }))) := by
        cases hst : wb.store <;> rw [hst] at h <;>
          simp only [Except.ok.injEq, Prod.mk.injEq] at h <;>
          rw [← h.1]
      intro cat ents hm e he
      rw [hext, List.mem_map] at hm
      obtain ⟨p, hp, heq⟩ := hm
      obtain ⟨hcat, hents⟩ := Prod.mk.injEq .. ▸ heq
      subst hcat
      rw [← hents, List.mem_map] at he
      obtain ⟨x, hx, hxe⟩ := he
      rw [← hxe]

/-- A one-concept state for the C10 witness. -/
def c10state : ExtractionState :=
  { initState "w10" with
      extracted_entities := [("concept", [{ name := "Gradient Descent" }])],
      entity_count := 1 }

theorem spec_c10_witness :
    c10state.should_process = true ∧ c10state.entity_count ≠ 0 ∧
    (∀ cat ents,
      (cat, ents) ∈ ({ c10state with
          extracted_entities :=
            [("concept", [{ name := "Gradient Descent", entity_type := some "concept" }])],
          warnings := ["Stored 1 entities and 0 relationships"] } :
            ExtractionState).extracted_entities →
      ∀ e ∈ ents, e.entity_type = some cat) :=
  ⟨rfl, by decide,
   spec_c10 { ctor := .ok (), store := .ok (), close := .ok () } c10state _ 1
     rfl (by decide) rfl⟩

/-- Claim C6: downstream stages honor the retriever's `should_process`
flag: with the flag false, the extractor, enhancer and storage writer
return the state untouched and issue no LLM request or store write; and no
stage ever changes the flag (in particular never from false to true). -/
theorem spec_c6 :
    (∀ ci b s, s.should_process = false → extract_entities ci b s = (s, 0)) ∧
    (∀ ci llm s, s.should_process = false → enhance_relationships ci llm s = (s, 0)) ∧
    (∀ wb s, s.should_process = false → store_results wb s = .ok (s, 0)) ∧
    (∀ ci b s, (extract_entities ci b s).1.should_process = s.should_process) ∧
    (∀ ci llm s, (enhance_relationships ci llm s).1.should_process = s.should_process) ∧
    (∀ wb s s2 n, store_results wb s = .ok (s2, n) →
      s2.should_process = s.should_process) := by
  refine ⟨?_, ?_, ?_, ?_, ?_, ?_⟩
  · intro ci b s h
    simp [extract_entities, h]
  · intro ci llm s h
    simp [enhance_relationships, h]
  · intro wb s h
    simp [store_results, h]
  · intro ci b s
    by_cases hsp : s.should_process
    · cases ci with
      | error e => simp [extract_entities, hsp]
      | ok u => simp [extract_entities, hsp, runCats_eq]
    · simp [extract_entities, hsp]
  · intro ci llm s
    simp only [enhance_relationships]
    split
    · rfl
    · split
      · rfl
      · cases ci with
        | error e => rfl
        | ok u =>
          split
          · rfl
          · split <;> rfl
  · intro wb s s2 n h
    unfold store_results at h
    split at h
    · simp only [Except.ok.injEq, Prod.mk.injEq] at h
      rw [← h.1]
    · cases hc : wb.ctor with
      | error e => rw [hc] at h; cases h
      | ok u =>
        rw [hc] at h
        cases hcl : wb.close with
        | error e =>
          rw [hcl] at h; cases hst : wb.store <;> rw [hst] at h <;> cases h
        | ok v =>
          rw [hcl] at h
          cases hst : wb.store <;> rw [hst] at h <;>
            simp only [Except.ok.injEq, Prod.mk.injEq] at h <;>
            rw [← h.1]

/-- A skipped state for the C6 witness. -/
def c6state : ExtractionState :=
  { initState "w6" with should_process := false, skip_reason := some "chunk_too_short" }

theorem spec_c6_witness :
    extract_entities (.ok ()) (fun _ => .ok []) c6state = (c6state, 0) ∧
    enhance_relationships (.ok ()) (.ok []) c6state = (c6state, 0) ∧
    store_results { ctor := .ok (), store := .ok (), close := .ok () } c6state = .ok (c6state, 0) ∧
    (extract_entities (.ok ()) (fun _ => .ok []) c6state).1.should_process = c6state.should_process ∧
    (enhance_relationships (.ok ()) (.ok []) c6state).1.should_process = c6state.should_process ∧
    c6state.should_process = c6state.should_process :=
  ⟨spec_c6.1 (.ok ()) (fun _ => .ok []) c6state rfl,
   spec_c6.2.1 (.ok ()) (.ok []) c6state rfl,
   spec_c6.2.2.1 { ctor := .ok (), store := .ok (), close := .ok () } c6state rfl,
   spec_c6.2.2.2.1 (.ok ()) (fun _ => .ok []) c6state,
   spec_c6.2.2.2.2.1 (.ok ()) (.ok []) c6state,
   spec_c6.2.2.2.2.2 { ctor := .ok (), store := .ok (), close := .ok () } c6state c6state 0
     (spec_c6.2.2.1 { ctor := .ok (), store := .ok (), close := .ok () } c6state rfl)⟩

/-- Claim C2 counterexample: the claim says no stage ever raises past its
boundary for any behaviour of the external store, but `Neo4jClient()` is
constructed before the `try` in both `retrieve_chunk` and `store_results`,
so a raising driver construction propagates out of the stage instead of
being recorded in `errors`. -/
theorem spec_c2_counterexample :
    retrieve_chunk
      { ctor := .error "driver construction failed", fetch := .ok none, close := .ok () }
      (initState "c1") = .error "driver construction failed" ∧
    store_results
      { ctor := .error "driver construction failed", store := .ok (), close := .ok () }
      { initState "c1" with entity_count := 1 } = .error "driver construction failed" :=
  ⟨rfl, rfl⟩

/-- Claim C2 (amended): provided graph-client construction and close
succeed, every stage returns a state for every behaviour of the store and
the LLM (including their calls raising), and failures only extend the
`errors` and `warnings` lists; the extractor and enhancer stages return a
state unconditionally.  Only a raising client construction or close can
escape the retriever or the storage writer. -/
theorem spec_c2_amended :
    (∀ (sb : StoreBehaviour) (s : ExtractionState),
      sb.ctor = .ok () → sb.close = .ok () →
      ∃ s2, retrieve_chunk sb s = .ok s2 ∧
        (∃ t, s2.errors = s.errors ++ t) ∧ (∃ t, s2.warnings = s.warnings ++ t)) ∧
    (∀ ci b s,
      (∃ t, (extract_entities ci b s).1.errors = s.errors ++ t) ∧
      (∃ t, (extract_entities ci b s).1.warnings = s.warnings ++ t)) ∧
    (∀ ci llm s,
      (∃ t, (enhance_relationships ci llm s).1.errors = s.errors ++ t) ∧
      (∃ t, (enhance_relationships ci llm s).1.warnings = s.warnings ++ t)) ∧
    (∀ (wb : StoreWriteBehaviour) (s : ExtractionState),
      wb.ctor = .ok () → wb.close = .ok () →
      ∃ p, store_results wb s = .ok p ∧
        (∃ t, p.1.errors = s.errors ++ t) ∧ (∃ t, p.1.warnings = s.warnings ++ t)) := by
  refine ⟨?_, ?_, ?_, ?_⟩
  · intro sb s hc hcl
    obtain ⟨ctor, fetch, close⟩ := sb
    simp only at hc hcl
    subst hc; subst hcl
    cases fetch with
    | error e =>
      exact ⟨_, rfl, ⟨["Error retrieving chunk: " ++ e], rfl⟩, ⟨[], by simp⟩⟩
    | ok od =>
      cases od with
      | none =>
        exact ⟨_, rfl, ⟨["Chunk " ++ s.chunk_id ++ " not found in database"], rfl⟩,
               ⟨[], by simp⟩⟩
      | some cd =>
        simp only [retrieve_chunk]
        split
        · exact ⟨_, rfl, ⟨[], by simp⟩, ⟨[], by simp⟩⟩
        · exact ⟨_, rfl, ⟨[], by simp⟩,
                 ⟨["Skipping chunk: " ++
                    (should_process_chunk (cd.text.getD "") (cd.chunk_type.getD "unknown")).2], rfl⟩⟩
  · intro ci b s
    by_cases hsp : s.should_process
    · cases ci with
      | error e =>
        exact ⟨⟨["Error in entity extraction: " ++ e], by simp [extract_entities, hsp]⟩,
               ⟨[], by simp [extract_entities, hsp]⟩⟩
      | ok u =>
        refine ⟨⟨errDeltas b (s.chunk_text.getD "") (s.chunk_type.getD "") catList, ?_⟩,
                ⟨warnDeltas b (s.chunk_text.getD "") (s.chunk_type.getD "") catList, ?_⟩⟩ <;>
          simp [extract_entities, hsp, runCats_eq]
    · refine ⟨⟨[], ?_⟩, ⟨[], ?_⟩⟩ <;> simp [extract_entities, hsp]
  · intro ci llm s
    simp only [enhance_relationships]
    split
    · exact ⟨⟨[], by simp⟩, ⟨[], by simp⟩⟩
    · split
      · exact ⟨⟨[], by simp⟩, ⟨[], by simp⟩⟩
      · cases ci with
        | error e =>
          exact ⟨⟨["Error in relationship enhancement: " ++ e], rfl⟩, ⟨[], by simp⟩⟩
        | ok u =>
          split
          · exact ⟨⟨["Error in relationship enhancement: " ++ _], rfl⟩, ⟨[], by simp⟩⟩
          · split
            · exact ⟨⟨["Error in relationship enhancement: " ++ _], rfl⟩, ⟨[], by simp⟩⟩
            · exact ⟨⟨[], by simp⟩, ⟨[], by simp⟩⟩
  · intro wb s hc hcl
    obtain ⟨ctor, store, close⟩ := wb
    simp only at hc hcl
    subst hc; subst hcl
    simp only [store_results]
    split
    · exact ⟨(s, 0), rfl, ⟨[], by simp⟩, ⟨[], by simp⟩⟩
    · cases store with
      | error e =>
        exact ⟨_, rfl, ⟨["Error storing results: " ++ e], rfl⟩, ⟨[], by simp⟩⟩
      | ok v =>
        exact ⟨_, rfl, ⟨[], by simp⟩, ⟨_, rfl⟩⟩

/-- A not-found fetch and an empty write, for the C2 witness. -/
def c2wbehaviour : StoreBehaviour :=
  { ctor := .ok (), fetch := .ok none, close := .ok () }

theorem spec_c2_amended_witness :
    (∃ s2, retrieve_chunk c2wbehaviour (initState "w2") = .ok s2 ∧
      (∃ t, s2.errors = (initState "w2").errors ++ t) ∧
      (∃ t, s2.warnings = (initState "w2").warnings ++ t)) ∧
    ((∃ t, (extract_entities (.error "llm client down") (fun _ => .ok [])
        (initState "w2")).1.errors = (initState "w2").errors ++ t) ∧
     (∃ t, (extract_entities (.error "llm client down") (fun _ => .ok [])
        (initState "w2")).1.warnings = (initState "w2").warnings ++ t)) ∧
    ((∃ t, (enhance_relationships (.ok ()) (.error "llm down")
        (initState "w2")).1.errors = (initState "w2").errors ++ t) ∧
     (∃ t, (enhance_relationships (.ok ()) (.error "llm down")
        (initState "w2")).1.warnings = (initState "w2").warnings ++ t)) ∧
    (∃ p, store_results { ctor := .ok (), store := .error "write failed", close := .ok () }
        { initState "w2" with entity_count := 2 } = .ok p ∧
      (∃ t, p.1.errors = ({ initState "w2" with entity_count := 2 } : ExtractionState).errors ++ t) ∧
      (∃ t, p.1.warnings = ({ initState "w2" with entity_count := 2 } : ExtractionState).warnings ++ t)) :=
  ⟨spec_c2_amended.1 c2wbehaviour (initState "w2") rfl rfl,
   spec_c2_amended.2.1 (.error "llm client down") (fun _ => .ok []) (initState "w2"),
   spec_c2_amended.2.2.1 (.ok ()) (.error "llm down") (initState "w2"),
   spec_c2_amended.2.2.2 { ctor := .ok (), store := .error "write failed", close := .ok () }
     { initState "w2" with entity_count := 2 } rfl rfl⟩

theorem catErrDelta_error (c : ExtractorCat) (e : String) :
    catErrDelta c (.error e) = ["Error in " ++ c.pyName ++ " extractor: " ++ e] := rfl

theorem catErrDelta_ok (c : ExtractorCat) (l : List RawEntity) :
    catErrDelta c (.ok l) = [] := rfl

theorem catWarnDelta_error (e : String) : catWarnDelta (.error e) = [] := rfl

theorem catWarnDelta_ok_nil : catWarnDelta (.ok []) = [] := rfl

theorem catDictUpd_error (d : List (String × List RawEntity)) (c : ExtractorCat)
    (e : String) : catDictUpd d c (.error e) = d := rfl

theorem catDictUpd_ok_nil (d : List (String × List RawEntity)) (c : ExtractorCat) :
    catDictUpd d c (.ok []) = d := rfl

/-- `extract_entities` on an eligible state with a live client, written out
through the loop decomposition. -/
theorem extract_entities_run (b : ExtractorCat → LLMEntityOutcome)
    (s : ExtractionState) (hsp : s.should_process = true) :
    extract_entities (.ok ()) b s =
      ({ s with
          errors := s.errors ++
            errDeltas b (s.chunk_text.getD "") (s.chunk_type.getD "") catList,
          warnings := s.warnings ++
            warnDeltas b (s.chunk_text.getD "") (s.chunk_type.getD "") catList,
          extracted_entities :=
            dictUpds b (s.chunk_text.getD "") (s.chunk_type.getD "") catList
              s.extracted_entities,
          entity_count := totalCount
            (dictUpds b (s.chunk_text.getD "") (s.chunk_type.getD "") catList
              s.extracted_entities) },
       (catList.map
         (fun c => (runExtractor b (s.chunk_text.getD "") (s.chunk_type.getD "") c).2)).sum) := by
  simp [extract_entities, hsp, runCats_eq]

/-- Claim C5: in the entity-extraction stage, if one category's extraction
task raises, an error mentioning that category is appended to `errors`, and
every other category is validated and aggregated exactly as it would be had
the failing category returned zero entities: same `extracted_entities`,
same `entity_count`, same warnings, and the error logs differ only by the
inserted per-category message. -/
theorem spec_c5 (b b2 : ExtractorCat → LLMEntityOutcome) (s : ExtractionState)
    (cat : ExtractorCat) (e : String)
    (hsp : s.should_process = true)
    (hfail : (runExtractor b (s.chunk_text.getD "") (s.chunk_type.getD "") cat).1 = .error e)
    (hok : (runExtractor b2 (s.chunk_text.getD "") (s.chunk_type.getD "") cat).1 = .ok [])
    (hagree : ∀ c, c ≠ cat →
      runExtractor b (s.chunk_text.getD "") (s.chunk_type.getD "") c =
        runExtractor b2 (s.chunk_text.getD "") (s.chunk_type.getD "") c) :
    (extract_entities (.ok ()) b s).1.extracted_entities =
      (extract_entities (.ok ()) b2 s).1.extracted_entities ∧
    (extract_entities (.ok ()) b s).1.entity_count =
      (extract_entities (.ok ()) b2 s).1.entity_count ∧
    (extract_entities (.ok ()) b s).1.warnings =
      (extract_entities (.ok ()) b2 s).1.warnings ∧
    ∃ p q, (extract_entities (.ok ()) b s).1.errors =
        p ++ ("Error in " ++ cat.pyName ++ " extractor: " ++ e) :: q ∧
      (extract_entities (.ok ()) b2 s).1.errors = p ++ q := by
  obtain ⟨text, htext⟩ : ∃ t, s.chunk_text.getD "" = t := ⟨_, rfl⟩
  obtain ⟨ty, hty⟩ : ∃ t, s.chunk_type.getD "" = t := ⟨_, rfl⟩
  rw [htext, hty] at hfail hok hagree
  rw [extract_entities_run b s hsp, extract_entities_run b2 s hsp, htext, hty]
  cases cat with
  | concept =>
    have a2 := hagree .method (by decide)
    have a3 := hagree .formula (by decide)
    have a4 := hagree .exampleCat (by decide)
    have a5 := hagree .legal_principle (by decide)
    have hd : dictUpds b text ty catList s.extracted_entities =
        dictUpds b2 text ty catList s.extracted_entities := by
      simp [dictUpds, catList, hfail, hok, a2, a3, a4, a5,
        catDictUpd_error, catDictUpd_ok_nil]
    refine ⟨hd, by rw [hd], ?_, ?_⟩
    · simp [warnDeltas, catList, hfail, hok, a2, a3, a4, a5,
        catWarnDelta_error, catWarnDelta_ok_nil]
    · refine ⟨s.errors,
        errDeltas b2 text ty [.method, .formula, .exampleCat, .legal_principle], ?_, ?_⟩
      · simp [errDeltas, catList, hfail, a2, a3, a4, a5, catErrDelta_error]
      · simp [errDeltas, catList, hok, catErrDelta_ok]
  | method =>
    have a1 := hagree .concept (by decide)
    have a3 := hagree .formula (by decide)
    have a4 := hagree .exampleCat (by decide)
    have a5 := hagree .legal_principle (by decide)
    have hd : dictUpds b text ty catList s.extracted_entities =
        dictUpds b2 text ty catList s.extracted_entities := by
      simp [dictUpds, catList, hfail, hok, a1, a3, a4, a5,
        catDictUpd_error, catDictUpd_ok_nil]
    refine ⟨hd, by rw [hd], ?_, ?_⟩
    · simp [warnDeltas, catList, hfail, hok, a1, a3, a4, a5,
        catWarnDelta_error, catWarnDelta_ok_nil]
    · refine ⟨s.errors ++ errDeltas b2 text ty [.concept],
        errDeltas b2 text ty [.formula, .exampleCat, .legal_principle], ?_, ?_⟩
      · simp [errDeltas, catList, hfail, a1, a3, a4, a5, catErrDelta_error]
      · simp [errDeltas, catList, hok, catErrDelta_ok]
  | formula =>
    have a1 := hagree .concept (by decide)
    have a2 := hagree .method (by decide)
    have a4 := hagree .exampleCat (by decide)
    have a5 := hagree .legal_principle (by decide)
    have hd : dictUpds b text ty catList s.extracted_entities =
        dictUpds b2 text ty catList s.extracted_entities := by
      simp [dictUpds, catList, hfail, hok, a1, a2, a4, a5,
        catDictUpd_error, catDictUpd_ok_nil]
    refine ⟨hd, by rw [hd], ?_, ?_⟩
    · simp [warnDeltas, catList, hfail, hok, a1, a2, a4, a5,
        catWarnDelta_error, catWarnDelta_ok_nil]
    · refine ⟨s.errors ++ errDeltas b2 text ty [.concept, .method],
        errDeltas b2 text ty [.exampleCat, .legal_principle], ?_, ?_⟩
      · simp [errDeltas, catList, hfail, a1, a2, a4, a5, catErrDelta_error]
      · simp [errDeltas, catList, hok, catErrDelta_ok]
  | exampleCat =>
    have a1 := hagree .concept (by decide)
    have a2 := hagree .method (by decide)
    have a3 := hagree .formula (by decide)
    have a5 := hagree .legal_principle (by decide)
    have hd : dictUpds b text ty catList s.extracted_entities =
        dictUpds b2 text ty catList s.extracted_entities := by
      simp [dictUpds, catList, hfail, hok, a1, a2, a3, a5,
        catDictUpd_error, catDictUpd_ok_nil]
    refine ⟨hd, by rw [hd], ?_, ?_⟩
    · simp [warnDeltas, catList, hfail, hok, a1, a2, a3, a5,
        catWarnDelta_error, catWarnDelta_ok_nil]
    · refine ⟨s.errors ++ errDeltas b2 text ty [.concept, .method, .formula],
        errDeltas b2 text ty [.legal_principle], ?_, ?_⟩
      · simp [errDeltas, catList, hfail, a1, a2, a3, a5, catErrDelta_error]
      · simp [errDeltas, catList, hok, catErrDelta_ok]
  | legal_principle =>
    have a1 := hagree .concept (by decide)
    have a2 := hagree .method (by decide)
    have a3 := hagree .formula (by decide)
    have a4 := hagree .exampleCat (by decide)
    have hd : dictUpds b text ty catList s.extracted_entities =
        dictUpds b2 text ty catList s.extracted_entities := by
      simp [dictUpds, catList, hfail, hok, a1, a2, a3, a4,
        catDictUpd_error, catDictUpd_ok_nil]
    refine ⟨hd, by rw [hd], ?_, ?_⟩
    · simp [warnDeltas, catList, hfail, hok, a1, a2, a3, a4,
        catWarnDelta_error, catWarnDelta_ok_nil]
    · refine ⟨s.errors ++ errDeltas b2 text ty [.concept, .method, .formula, .exampleCat],
        [], ?_, ?_⟩
      · simp [errDeltas, catList, hfail, a1, a2, a3, a4, catErrDelta_error]
      · simp [errDeltas, catList, hok, catErrDelta_ok]

/-- Behaviours for the C5 witness: the method extractor raises, the others
return nothing. -/
def c5bad : ExtractorCat → LLMEntityOutcome := fun c =>
  match c with
  | .method => .error "boom"
  | _ => .ok []

/-- The comparison behaviours for the C5 witness: every extractor returns
zero entities. -/
def c5good : ExtractorCat → LLMEntityOutcome := fun _ => .ok []

/-- An eligible state for the C5 witness. -/
def c5state : ExtractionState :=
  { initState "w5" with chunk_text := some "", chunk_type := some "paragraph" }

theorem spec_c5_witness :
    (extract_entities (.ok ()) c5bad c5state).1.extracted_entities =
      (extract_entities (.ok ()) c5good c5state).1.extracted_entities ∧
    (extract_entities (.ok ()) c5bad c5state).1.entity_count =
      (extract_entities (.ok ()) c5good c5state).1.entity_count ∧
    (extract_entities (.ok ()) c5bad c5state).1.warnings =
      (extract_entities (.ok ()) c5good c5state).1.warnings ∧
    ∃ p q, (extract_entities (.ok ()) c5bad c5state).1.errors =
        p ++ ("Error in " ++ ExtractorCat.method.pyName ++ " extractor: " ++ "boom") :: q ∧
      (extract_entities (.ok ()) c5good c5state).1.errors = p ++ q :=
  spec_c5 c5bad c5good c5state .method "boom" rfl rfl rfl
    (fun c hc => by cases c <;> first | rfl | exact absurd rfl hc)
